import Mathlib

/-!
Shallow embedding of the snowpipe ingest client
(createSnowpipeAPI and its inner functions getBearerToken, makeRequest,
insertFile, insertReport, loadHistoryScan).

Strings are modelled as Lean strings (sequences of Unicode scalar values);
a JS string length in UTF-16 code units is modelled by jsStringLength.
The HTTP transport, the JSON parser and the crypto provider are external
collaborators: the transport outcome is an explicit RequestEvent input,
the JSON parser is an explicit parse function parameter, and the key
fingerprint and signed token are explicit string parameters.
Clock reads (new Date().getTime()) are explicit millisecond parameters.
-/

def USER_AGENT : String := "snowpipe-ingest-node/0.0.1/node/npm"

structure SnowpipeAPIOptions where
  recordHistory : Bool
deriving DecidableEq

/-- Headers built by the three endpoint operations. Content-Type and
Content-Length are only present on the POST (insertFiles) request. -/
structure Headers where
  contentType : Option String
  contentLength : Option Nat
  authorization : String
  userAgent : String
  accept : String
deriving DecidableEq

/-- The https.RequestOptions fields this client populates. -/
structure RequestOptions where
  hostname : String
  port : Nat
  path : String
  method : String
  headers : Headers
deriving DecidableEq

structure RecordedCallResponse where
  error : Option String
  statusCode : Option Nat
  messageBody : Option String
deriving DecidableEq

structure RecordedCall where
  request : RequestOptions
  response : RecordedCallResponse
deriving DecidableEq

structure APIEndpointHistory where
  insertFile : List RecordedCall
  insertReport : List RecordedCall
  loadHistoryScan : List RecordedCall
deriving DecidableEq

structure SnowpipeAPIResponse (α : Type) where
  json : Option α
  rawResponse : String
  statusCode : Option Nat
deriving DecidableEq

/-- Outcome of one https.request exchange, as seen by the callbacks in
makeRequest: either a response (status code plus the streamed body chunks
collected by the data handler), or a transport-level error. -/
structure HttpResponseEvent where
  statusCode : Option Nat
  chunks : List String
deriving DecidableEq

inductive RequestEvent where
  | response (r : HttpResponseEvent)
  | transportError (message : String)
deriving DecidableEq

/-- Array.prototype.join with a separator, as used for
domainParts.join, filenames.join and body.join. -/
def joinSep (sep : String) : List String → String
  | [] => ""
  | [p] => p
  | p :: q :: ps => p ++ sep ++ joinSep sep (q :: ps)

/-- The snowpipeAPIOptions?.recordHistory === true test. -/
def recordHistoryOn (snowpipeAPIOptions : Option SnowpipeAPIOptions) : Bool :=
  match snowpipeAPIOptions with
  | some o => o.recordHistory
  | none => false

/-- makeRequest: records the call into the given endpoint history slice
when history recording is enabled, classifies the response by status code,
and resolves with a parse-attempted payload or rejects with an error. -/
def makeRequest {α : Type} (parse : String → Option α) (options : RequestOptions)
    (snowpipeAPIOptions : Option SnowpipeAPIOptions)
    (endpointCallHistory : List RecordedCall) (event : RequestEvent) :
    List RecordedCall × Except String (SnowpipeAPIResponse α) :=
  match event with
  | RequestEvent.response r =>
    let messageBody := joinSep "" r.chunks
    let hist :=
      if recordHistoryOn snowpipeAPIOptions then
        endpointCallHistory ++ [⟨options, ⟨none, r.statusCode, some messageBody⟩⟩]
      else endpointCallHistory
    match r.statusCode with
    | some code =>
      if code < 200 ∨ code > 299 then
        (hist, Except.error ("status code: " ++ toString code ++ ".  \x27" ++ messageBody ++ "\x27"))
      else
        (hist, Except.ok ⟨parse messageBody, messageBody, some code⟩)
    | none => (hist, Except.ok ⟨parse messageBody, messageBody, none⟩)
  | RequestEvent.transportError message =>
    let hist :=
      if recordHistoryOn snowpipeAPIOptions then
        endpointCallHistory ++ [⟨options, ⟨some message, none, none⟩⟩]
      else endpointCallHistory
    (hist, Except.error message)

/-- Hostname derivation in createSnowpipeAPI: domainParts filtered to the
defined entries, joined with a dot, suffixed with the provider domain. -/
def hostnameFor (account : String) (regionId cloudProvider : Option String) : String :=
  let domainParts : List (Option String) := [some account, regionId, cloudProvider]
  joinSep "." (domainParts.filterMap id) ++ ".snowflakecomputing.com"

/-- The JS String.prototype.toUpperCase call, modelled as uppercasing each
character of the string. -/
def jsToUpperCase (s : String) : String :=
  ⟨s.data.map Char.toUpper⟩

/-- Connection configuration built once in createSnowpipeAPI. -/
structure Config where
  username : String
  privateKey : String
  account : String
  hostname : String
deriving DecidableEq

def createConfig (username privateKey account : String)
    (regionId cloudProvider : Option String) : Config :=
  ⟨jsToUpperCase username, privateKey, jsToUpperCase account,
    hostnameFor account regionId cloudProvider⟩

/-- Hex digit used by the JSON string escaper for control characters. -/
def hexDigit (n : Nat) : String :=
  if n = 10 then "a" else if n = 11 then "b" else if n = 12 then "c"
  else if n = 13 then "d" else if n = 14 then "e" else if n = 15 then "f"
  else toString n

/-- JSON.stringify escaping of a single character inside a string literal. -/
def escapeJSONChar (c : Char) : String :=
  if c = '"' then "\\\""
  else if c = '\\' then "\\\\"
  else if c.toNat = 8 then "\\b"
  else if c.toNat = 9 then "\\t"
  else if c.toNat = 10 then "\\n"
  else if c.toNat = 12 then "\\f"
  else if c.toNat = 13 then "\\r"
  else if c.toNat < 32 then "\\u00" ++ hexDigit (c.toNat / 16) ++ hexDigit (c.toNat % 16)
  else String.singleton c

/-- JSON.stringify of a string value. -/
def encodeJSONString (s : String) : String :=
  "\"" ++ joinSep "" (s.data.map escapeJSONChar) ++ "\""

/-- The insertFile JSON-mode body:
JSON.stringify of the files object built from the filenames, in order. -/
def stringifyFilesBody (filenames : List String) : String :=
  "\x7b\"files\":[" ++
    joinSep "," (filenames.map (fun filename => "\x7b\"path\":" ++ encodeJSONString filename ++ "\x7d")) ++
    "]\x7d"

/-- Number of UTF-16 code units a character occupies in a JS string. -/
def utf16SizeChar (c : Char) : Nat :=
  if c.toNat < 65536 then 1 else 2

/-- The JS String.prototype.length of a string: its UTF-16 code unit count. -/
def jsStringLength (s : String) : Nat :=
  (s.data.map utf16SizeChar).sum

/-- Number of bytes a character occupies in the UTF-8 encoding. -/
def utf8SizeChar (c : Char) : Nat :=
  if c.toNat < 128 then 1
  else if c.toNat < 2048 then 2
  else if c.toNat < 65536 then 3
  else 4

/-- UTF-8 encoded byte length of a string. -/
def utf8ByteLength (s : String) : Nat :=
  (s.data.map utf8SizeChar).sum

/-- Content type and post body chosen by insertFile from the postJSON flag. -/
def insertFileContentTypeAndBody (filenames : List String) (postJSON : Bool) :
    String × String :=
  if postJSON = true then ("application/json", stringifyFilesBody filenames)
  else ("text/plain", joinSep "\n" filenames)

/-- Request options and body built by insertFile. Content-Length is set to
the JS string length of the post body (postBody.length). -/
def insertFileRequest (config : Config) (pipeName : String) (filenames : List String)
    (postJSON : Bool) (requestId jwtToken : String) : RequestOptions × String :=
  let ct := insertFileContentTypeAndBody filenames postJSON
  let path := "/v1/data/pipes/" ++ pipeName ++ "/insertFiles?requestId=" ++ requestId
  (⟨config.hostname, 443, path, "POST",
    ⟨some ct.1, some (jsStringLength ct.2), "Bearer " ++ jwtToken, USER_AGENT,
      "application/json"⟩⟩, ct.2)

/-- Path built by insertReport: the beginMark query parameter is appended
only when beginMark is truthy (defined and non-empty). -/
def insertReportPath (pipeName : String) (beginMark : Option String)
    (requestId : String) : String :=
  let path := "/v1/data/pipes/" ++ pipeName ++ "/insertReport?requestId=" ++ requestId
  match beginMark with
  | some mark => if mark = "" then path else path ++ "&beginMark=" ++ mark
  | none => path

def insertReportRequest (config : Config) (pipeName : String)
    (beginMark : Option String) (requestId jwtToken : String) : RequestOptions :=
  ⟨config.hostname, 443, insertReportPath pipeName beginMark requestId, "GET",
    ⟨none, none, "Bearer " ++ jwtToken, USER_AGENT, "application/json"⟩⟩

/-- Path built by loadHistoryScan: the endTimeExclusive query parameter is
appended only when endTimeExclusive is truthy (defined and non-empty). -/
def loadHistoryScanPath (pipeName startTimeInclusive : String)
    (endTimeExclusive : Option String) (requestId : String) : String :=
  let path := "/v1/data/pipes/" ++ pipeName ++ "/loadHistoryScan?startTimeInclusive=" ++
    startTimeInclusive ++ "&requestId=" ++ requestId
  match endTimeExclusive with
  | some t => if t = "" then path else path ++ "&endTimeExclusive=" ++ t
  | none => path

def loadHistoryScanRequest (config : Config) (pipeName startTimeInclusive : String)
    (endTimeExclusive : Option String) (requestId jwtToken : String) : RequestOptions :=
  ⟨config.hostname, 443,
    loadHistoryScanPath pipeName startTimeInclusive endTimeExclusive requestId, "GET",
    ⟨none, none, "Bearer " ++ jwtToken, USER_AGENT, "application/json"⟩⟩

/-- The insertFile operation: builds the request, runs it against the
insertFile history slice, leaves the other two slices untouched. -/
def insertFile {α : Type} (parse : String → Option α) (config : Config)
    (snowpipeAPIOptions : Option SnowpipeAPIOptions) (hist : APIEndpointHistory)
    (pipeName : String) (filenames : List String) (postJSON : Bool)
    (requestId jwtToken : String) (event : RequestEvent) :
    APIEndpointHistory × Except String (SnowpipeAPIResponse α) :=
  let rq := insertFileRequest config pipeName filenames postJSON requestId jwtToken
  let res := makeRequest parse rq.1 snowpipeAPIOptions hist.insertFile event
  (⟨res.1, hist.insertReport, hist.loadHistoryScan⟩, res.2)

/-- The insertReport operation, running against the insertReport slice. -/
def insertReport {α : Type} (parse : String → Option α) (config : Config)
    (snowpipeAPIOptions : Option SnowpipeAPIOptions) (hist : APIEndpointHistory)
    (pipeName : String) (beginMark : Option String) (requestId jwtToken : String)
    (event : RequestEvent) :
    APIEndpointHistory × Except String (SnowpipeAPIResponse α) :=
  let res := makeRequest parse (insertReportRequest config pipeName beginMark requestId jwtToken)
    snowpipeAPIOptions hist.insertReport event
  (⟨hist.insertFile, res.1, hist.loadHistoryScan⟩, res.2)

/-- The loadHistoryScan operation, running against the loadHistoryScan slice. -/
def loadHistoryScan {α : Type} (parse : String → Option α) (config : Config)
    (snowpipeAPIOptions : Option SnowpipeAPIOptions) (hist : APIEndpointHistory)
    (pipeName startTimeInclusive : String) (endTimeExclusive : Option String)
    (requestId jwtToken : String) (event : RequestEvent) :
    APIEndpointHistory × Except String (SnowpipeAPIResponse α) :=
  let res := makeRequest parse
    (loadHistoryScanRequest config pipeName startTimeInclusive endTimeExclusive requestId jwtToken)
    snowpipeAPIOptions hist.loadHistoryScan event
  (⟨hist.insertFile, hist.insertReport, res.1⟩, res.2)

/-- Claim set assembled by getBearerToken. -/
structure JwtPayload where
  iss : String
  sub : String
  iat : Nat
  exp : Nat
deriving DecidableEq

/-- Math.round(t / 1000) for an integer millisecond timestamp t:
rounding half away from zero, computed exactly on rationals as
floor((2 t + 1000) / 2000). -/
def mathRoundMillisToSeconds (t : Nat) : Nat :=
  (2 * t + 1000) / 2000

/-- Payload built by getBearerToken. The two clock reads
(new Date().getTime() in the iat line and in the exp line) are the
millisecond parameters t1 and t2; the key fingerprint is the
signature parameter. Math.round(t2 / 1000 + 60 * 59) is computed exactly
as mathRoundMillisToSeconds (t2 + 60 * 59 * 1000). -/
def getBearerTokenPayload (config : Config) (signature : String)
    (t1 t2 : Nat) : JwtPayload :=
  ⟨config.account ++ "." ++ config.username ++ "." ++ signature,
   config.account ++ "." ++ config.username,
   mathRoundMillisToSeconds t1,
   mathRoundMillisToSeconds (t2 + 60 * 59 * 1000)⟩

/-- The ledger record makeRequest appends for a given exchange outcome. -/
def recordOf (options : RequestOptions) (event : RequestEvent) : RecordedCall :=
  match event with
  | RequestEvent.response r => ⟨options, ⟨none, r.statusCode, some (joinSep "" r.chunks)⟩⟩
  | RequestEvent.transportError message => ⟨options, ⟨some message, none, none⟩⟩

/-- One completed invocation of one of the three endpoint operations,
with all of its inputs, including the transport outcome. -/
inductive APICall where
  | insertFileCall (pipeName : String) (filenames : List String) (postJSON : Bool)
      (requestId jwtToken : String) (event : RequestEvent)
  | insertReportCall (pipeName : String) (beginMark : Option String)
      (requestId jwtToken : String) (event : RequestEvent)
  | loadHistoryScanCall (pipeName startTimeInclusive : String)
      (endTimeExclusive : Option String) (requestId jwtToken : String)
      (event : RequestEvent)

/-- Request options the named call sends. -/
def callOptions (config : Config) : APICall → RequestOptions
  | APICall.insertFileCall pipeName filenames postJSON requestId jwtToken _ =>
      (insertFileRequest config pipeName filenames postJSON requestId jwtToken).1
  | APICall.insertReportCall pipeName beginMark requestId jwtToken _ =>
      insertReportRequest config pipeName beginMark requestId jwtToken
  | APICall.loadHistoryScanCall pipeName startTimeInclusive endTimeExclusive requestId jwtToken _ =>
      loadHistoryScanRequest config pipeName startTimeInclusive endTimeExclusive requestId jwtToken

def callEvent : APICall → RequestEvent
  | APICall.insertFileCall _ _ _ _ _ event => event
  | APICall.insertReportCall _ _ _ _ event => event
  | APICall.loadHistoryScanCall _ _ _ _ _ event => event

/-- Ledger record a completed call leaves behind when recording is on. -/
def callRecord (config : Config) (c : APICall) : RecordedCall :=
  recordOf (callOptions config c) (callEvent c)

/-- Ledger effect of one completed endpoint-operation invocation. -/
def applyCall {α : Type} (parse : String → Option α) (config : Config)
    (snowpipeAPIOptions : Option SnowpipeAPIOptions) (hist : APIEndpointHistory) :
    APICall → APIEndpointHistory
  | APICall.insertFileCall pipeName filenames postJSON requestId jwtToken event =>
      (insertFile parse config snowpipeAPIOptions hist pipeName filenames postJSON
        requestId jwtToken event).1
  | APICall.insertReportCall pipeName beginMark requestId jwtToken event =>
      (insertReport parse config snowpipeAPIOptions hist pipeName beginMark
        requestId jwtToken event).1
  | APICall.loadHistoryScanCall pipeName startTimeInclusive endTimeExclusive requestId jwtToken event =>
      (loadHistoryScan parse config snowpipeAPIOptions hist pipeName startTimeInclusive
        endTimeExclusive requestId jwtToken event).1

/-- Ledger state after a sequence of completed invocations, in order. -/
def runCalls {α : Type} (parse : String → Option α) (config : Config)
    (snowpipeAPIOptions : Option SnowpipeAPIOptions) :
    List APICall → APIEndpointHistory → APIEndpointHistory
  | [], hist => hist
  | c :: rest, hist =>
      runCalls parse config snowpipeAPIOptions rest
        (applyCall parse config snowpipeAPIOptions hist c)

/-- Records contributed to the insertFile slice by a call sequence. -/
def insertFileRecords (config : Config) (script : List APICall) : List RecordedCall :=
  script.filterMap (fun c => match c with
    | APICall.insertFileCall _ _ _ _ _ _ => some (callRecord config c)
    | _ => none)

/-- Records contributed to the insertReport slice by a call sequence. -/
def insertReportRecords (config : Config) (script : List APICall) : List RecordedCall :=
  script.filterMap (fun c => match c with
    | APICall.insertReportCall _ _ _ _ _ => some (callRecord config c)
    | _ => none)

/-- Records contributed to the loadHistoryScan slice by a call sequence. -/
def loadHistoryScanRecords (config : Config) (script : List APICall) : List RecordedCall :=
  script.filterMap (fun c => match c with
    | APICall.loadHistoryScanCall _ _ _ _ _ _ => some (callRecord config c)
    | _ => none)

/-- Modelled from the spec: hostname derivation that joins the non-empty
values among account, regionId, cloudProvider — the rule as the spec words
it, for comparison with hostnameFor, which is the rule the code applies. -/
def hostnameJoinNonEmpty (account : String) (regionId cloudProvider : Option String) : String :=
  let domainParts : List (Option String) := [some account, regionId, cloudProvider]
  joinSep "." ((domainParts.filterMap id).filter (fun p => p ≠ "")) ++ ".snowflakecomputing.com"

/-- Sample configuration used by concrete witnesses. -/
def sampleConfig : Config :=
  createConfig "user" "pem" "acct" none none

/-- Sample request options used by concrete witnesses. -/
def sampleOptions : RequestOptions :=
  ⟨"ACCT.snowflakecomputing.com", 443, "/v1/data/pipes/p/insertReport?requestId=r", "GET",
    ⟨none, none, "Bearer tok", USER_AGENT, "application/json"⟩⟩

theorem makeRequest_fst {α : Type} (parse : String → Option α) (options : RequestOptions)
    (snowpipeAPIOptions : Option SnowpipeAPIOptions) (h : List RecordedCall)
    (event : RequestEvent) :
    (makeRequest parse options snowpipeAPIOptions h event).1 =
      if recordHistoryOn snowpipeAPIOptions then h ++ [recordOf options event] else h := by
  cases event with
  | response r =>
    cases hsc : r.statusCode <;>
      (simp [makeRequest, recordOf, hsc]; try (split <;> rfl))
  | transportError message => rfl

/-- Claim C1, as stated, fails on the code: getBearerToken reads the clock
once for the issued-at claim and again for the expiry claim, and when the
second read is 1000 ms after the first, the minted payload has
exp - iat = 3541, not 3540. -/
theorem C1_counterexample :
    ¬ ((getBearerTokenPayload sampleConfig "sig" 0 1000).exp -
        (getBearerTokenPayload sampleConfig "sig" 0 1000).iat = 3540) := by
  decide

/-- Claim C1 (amended): whenever the two clock reads inside one mint return
the same millisecond value t, the minted payload satisfies
exp - iat = 3540 exactly (equivalently exp = iat + 3540). -/
theorem C1_expiry_minus_issued_at (config : Config) (signature : String) (t : Nat) :
    (getBearerTokenPayload config signature t t).exp -
      (getBearerTokenPayload config signature t t).iat = 3540 ∧
    (getBearerTokenPayload config signature t t).iat + 3540 =
      (getBearerTokenPayload config signature t t).exp := by
  refine ⟨?_, ?_⟩ <;>
    simp [getBearerTokenPayload, mathRoundMillisToSeconds] <;> omega

/-- Claim C2: a response whose status code lies outside the range 200 to 299
makes the call fail with an error carrying that status code and the raw
response body verbatim, and, when history recording is enabled, the calling
endpoint ledger slice gains exactly one entry recording that status code
and body. -/
theorem C2_http_error_rejected_and_recorded {α : Type} (parse : String → Option α)
    (options : RequestOptions) (snowpipeAPIOptions : Option SnowpipeAPIOptions)
    (h : List RecordedCall) (code : Nat) (chunks : List String)
    (hcode : code < 200 ∨ 299 < code) :
    (makeRequest parse options snowpipeAPIOptions h
        (RequestEvent.response ⟨some code, chunks⟩)).2 =
      Except.error ("status code: " ++ toString code ++ ".  \x27" ++ joinSep "" chunks ++ "\x27") ∧
    (recordHistoryOn snowpipeAPIOptions = true →
      (makeRequest parse options snowpipeAPIOptions h
          (RequestEvent.response ⟨some code, chunks⟩)).1 =
        h ++ [⟨options, ⟨none, some code, some (joinSep "" chunks)⟩⟩]) := by
  constructor
  · simp [makeRequest, hcode]
  · intro hrec
    simp [makeRequest, hrec]
    split <;> rfl

/-- Claim C2 witness: status 403 with body forbidden rejects with the error
carrying status and body, and the ledger slice gains exactly that entry. -/
theorem C2_witness :
    (makeRequest (fun _ => (none : Option Unit)) sampleOptions (some ⟨true⟩) []
        (RequestEvent.response ⟨some 403, ["forbidden"]⟩)).2 =
      Except.error "status code: 403.  \x27forbidden\x27" ∧
    (makeRequest (fun _ => (none : Option Unit)) sampleOptions (some ⟨true⟩) []
        (RequestEvent.response ⟨some 403, ["forbidden"]⟩)).1 =
      [⟨sampleOptions, ⟨none, some 403, some "forbidden"⟩⟩] := by
  have h := C2_http_error_rejected_and_recorded (fun _ => (none : Option Unit))
    sampleOptions (some ⟨true⟩) [] 403 ["forbidden"] (Or.inr (by decide))
  exact ⟨h.1, h.2 rfl⟩

/-- Claim C3, as stated, fails on the code: the code keeps every defined
domain part, not every non-empty one, so an empty regionId string yields a
double dot where the claimed rule would drop it. -/
theorem C3_counterexample :
    hostnameFor "ACME" (some "") none = "ACME..snowflakecomputing.com" ∧
    hostnameJoinNonEmpty "ACME" (some "") none = "ACME.snowflakecomputing.com" ∧
    hostnameFor "ACME" (some "") none ≠ hostnameJoinNonEmpty "ACME" (some "") none := by
  refine ⟨rfl, rfl, ?_⟩
  decide

/-- Claim C3 (amended): hostname derivation joins the defined (non-undefined)
values among account, regionId, cloudProvider with a dot and appends the
provider domain; both worked examples of the claim hold, and the config
built at construction holds exactly this hostname. -/
theorem C3_hostname_derivation :
    (∀ account : String,
      hostnameFor account none none = account ++ ".snowflakecomputing.com") ∧
    (∀ account regionId cloudProvider : String,
      hostnameFor account (some regionId) (some cloudProvider) =
        account ++ "." ++ regionId ++ "." ++ cloudProvider ++ ".snowflakecomputing.com") ∧
    hostnameFor "ACME" (some "us-central1") (some "gcp") =
      "ACME.us-central1.gcp.snowflakecomputing.com" ∧
    (∀ username privateKey account : String, ∀ regionId cloudProvider : Option String,
      (createConfig username privateKey account regionId cloudProvider).hostname =
        hostnameFor account regionId cloudProvider) := by
  refine ⟨fun account => rfl, fun account regionId cloudProvider => ?_, rfl,
    fun username privateKey account regionId cloudProvider => rfl⟩
  simp [hostnameFor, joinSep, String.append_assoc]

/-- Claim C4: insertFile with the JSON flag off sends the filenames joined
by newline with content type text/plain, and with the JSON flag on sends
the files object with one path object per filename, in order, with content
type application/json; both worked examples of the claim hold. -/
theorem C4_insert_file_body (config : Config) (pipeName : String)
    (filenames : List String) (requestId jwtToken : String) :
    (insertFileRequest config pipeName filenames false requestId jwtToken).2 =
      joinSep "\n" filenames ∧
    (insertFileRequest config pipeName filenames false requestId jwtToken).1.headers.contentType =
      some "text/plain" ∧
    (insertFileRequest config pipeName filenames true requestId jwtToken).2 =
      "\x7b\"files\":[" ++
        joinSep "," (filenames.map (fun f => "\x7b\"path\":" ++ encodeJSONString f ++ "\x7d")) ++
        "]\x7d" ∧
    (insertFileRequest config pipeName filenames true requestId jwtToken).1.headers.contentType =
      some "application/json" ∧
    (insertFileRequest config pipeName ["a.csv", "b.csv"] false requestId jwtToken).2 =
      "a.csv\nb.csv" ∧
    (insertFileRequest config pipeName ["a.csv", "b.csv"] true requestId jwtToken).2 =
      "\x7b\"files\":[\x7b\"path\":\"a.csv\"\x7d,\x7b\"path\":\"b.csv\"\x7d]\x7d" :=
  ⟨rfl, rfl, rfl, rfl, rfl, rfl⟩

/-- Claim C5, as stated, fails on the code: both optional parameters are
guarded by a JS truthiness test, so a provided empty beginMark is omitted
from the path rather than appended. -/
theorem C5_counterexample :
    insertReportPath "p" (some "") "rid" = "/v1/data/pipes/p/insertReport?requestId=rid" ∧
    insertReportPath "p" (some "") "rid" ≠
      "/v1/data/pipes/p/insertReport?requestId=rid&beginMark=" := by
  refine ⟨rfl, ?_⟩
  decide

/-- Claim C5 (amended): an absent beginMark or endTimeExclusive is omitted
from the path entirely, and a provided non-empty one is appended as an
additional ampersand-separated query parameter; a provided empty string is
falsy in JS and is also omitted. -/
theorem C5_optional_query_params (pipeName requestId startTimeInclusive : String) :
    insertReportPath pipeName none requestId =
      "/v1/data/pipes/" ++ pipeName ++ "/insertReport?requestId=" ++ requestId ∧
    (∀ mark : String, mark ≠ "" →
      insertReportPath pipeName (some mark) requestId =
        "/v1/data/pipes/" ++ pipeName ++ "/insertReport?requestId=" ++ requestId ++
          "&beginMark=" ++ mark) ∧
    loadHistoryScanPath pipeName startTimeInclusive none requestId =
      "/v1/data/pipes/" ++ pipeName ++ "/loadHistoryScan?startTimeInclusive=" ++
        startTimeInclusive ++ "&requestId=" ++ requestId ∧
    (∀ t : String, t ≠ "" →
      loadHistoryScanPath pipeName startTimeInclusive (some t) requestId =
        "/v1/data/pipes/" ++ pipeName ++ "/loadHistoryScan?startTimeInclusive=" ++
          startTimeInclusive ++ "&requestId=" ++ requestId ++ "&endTimeExclusive=" ++ t) := by
  refine ⟨rfl, ?_, rfl, ?_⟩ <;>
    (intro v hv; simp [insertReportPath, loadHistoryScanPath, hv])

/-- Claim C5 witness: a non-empty beginMark and a non-empty endTimeExclusive
are appended to the respective paths. -/
theorem C5_witness :
    insertReportPath "p" (some "mark123") "rid" =
      "/v1/data/pipes/p/insertReport?requestId=rid&beginMark=mark123" ∧
    loadHistoryScanPath "p" "2021-01-01" (some "2021-01-02") "rid" =
      "/v1/data/pipes/p/loadHistoryScan?startTimeInclusive=2021-01-01&requestId=rid&endTimeExclusive=2021-01-02" := by
  have h := C5_optional_query_params "p" "rid" "2021-01-01"
  exact ⟨h.2.1 "mark123" (by decide), h.2.2.2 "2021-01-02" (by decide)⟩

/-- Claim C6: a response with a status code in the range 200 to 299 whose
body the JSON parser cannot parse still succeeds: the result has a null
structured payload, the raw body verbatim, and the status code. -/
theorem C6_success_on_unparsable_body {α : Type} (parse : String → Option α)
    (options : RequestOptions) (snowpipeAPIOptions : Option SnowpipeAPIOptions)
    (h : List RecordedCall) (code : Nat) (chunks : List String)
    (hlow : 200 ≤ code) (hhigh : code ≤ 299)
    (hparse : parse (joinSep "" chunks) = none) :
    (makeRequest parse options snowpipeAPIOptions h
        (RequestEvent.response ⟨some code, chunks⟩)).2 =
      Except.ok ⟨none, joinSep "" chunks, some code⟩ := by
  have hcond : ¬ (code < 200 ∨ code > 299) := by omega
  simp [makeRequest, hcond, hparse]

/-- Claim C6 witness: status 200 with the non-JSON body succeeds with a null
payload and the raw body. -/
theorem C6_witness :
    (makeRequest (fun _ => (none : Option Unit)) sampleOptions none []
        (RequestEvent.response ⟨some 200, ["not json"]⟩)).2 =
      Except.ok ⟨none, "not json", some 200⟩ :=
  C6_success_on_unparsable_body (fun _ => (none : Option Unit)) sampleOptions none []
    200 ["not json"] (by decide) (by decide) rfl

/-- Claim C8: a response that arrives with an undefined status code is
classified as a success for every body: the call resolves with the
parse-attempted json, the raw body, and the undefined status code, instead
of rejecting with an HTTP error. -/
theorem C8_undefined_status_is_success {α : Type} (parse : String → Option α)
    (options : RequestOptions) (snowpipeAPIOptions : Option SnowpipeAPIOptions)
    (h : List RecordedCall) (chunks : List String) :
    (makeRequest parse options snowpipeAPIOptions h
        (RequestEvent.response ⟨none, chunks⟩)).2 =
      Except.ok ⟨parse (joinSep "" chunks), joinSep "" chunks, none⟩ := rfl

/-- Claim C7: with history recording enabled, any sequence of completed
endpoint invocations leaves each endpoint ledger slice equal to its prior
contents followed by exactly one record per invocation of that endpoint,
in invocation order — appended, never reordered, deduplicated or removed. -/
theorem C7_ledger_in_order {α : Type} (parse : String → Option α) (config : Config)
    (snowpipeAPIOptions : Option SnowpipeAPIOptions) (script : List APICall)
    (hist : APIEndpointHistory)
    (hrec : recordHistoryOn snowpipeAPIOptions = true) :
    runCalls parse config snowpipeAPIOptions script hist =
      ⟨hist.insertFile ++ insertFileRecords config script,
       hist.insertReport ++ insertReportRecords config script,
       hist.loadHistoryScan ++ loadHistoryScanRecords config script⟩ := by
  induction script generalizing hist with
  | nil =>
    simp [runCalls, insertFileRecords, insertReportRecords, loadHistoryScanRecords]
  | cons c rest ih =>
    cases c with
    | insertFileCall pipeName filenames postJSON requestId jwtToken event =>
      simp [runCalls, applyCall, insertFile, makeRequest_fst, hrec, ih,
        insertFileRecords, insertReportRecords, loadHistoryScanRecords,
        callRecord, callOptions, callEvent, List.filterMap_cons]
    | insertReportCall pipeName beginMark requestId jwtToken event =>
      simp [runCalls, applyCall, insertReport, makeRequest_fst, hrec, ih,
        insertFileRecords, insertReportRecords, loadHistoryScanRecords,
        callRecord, callOptions, callEvent, List.filterMap_cons]
    | loadHistoryScanCall pipeName startTimeInclusive endTimeExclusive requestId jwtToken event =>
      simp [runCalls, applyCall, loadHistoryScan, makeRequest_fst, hrec, ih,
        insertFileRecords, insertReportRecords, loadHistoryScanRecords,
        callRecord, callOptions, callEvent, List.filterMap_cons]

/-- Claim C7 witness: two sequential insertReport invocations with
recording enabled leave exactly their two records, in order, in the
insertReport slice and nothing in the other slices. -/
theorem C7_witness :
    runCalls (fun _ => (none : Option Unit)) sampleConfig (some ⟨true⟩)
      [APICall.insertReportCall "p" none "r1" "tok" (RequestEvent.response ⟨some 200, ["ok"]⟩),
       APICall.insertReportCall "p" none "r2" "tok" (RequestEvent.transportError "reset")]
      ⟨[], [], []⟩ =
    ⟨[],
     [⟨insertReportRequest sampleConfig "p" none "r1" "tok", ⟨none, some 200, some "ok"⟩⟩,
      ⟨insertReportRequest sampleConfig "p" none "r2" "tok", ⟨some "reset", none, none⟩⟩],
     []⟩ := by
  have h := C7_ledger_in_order (fun _ => (none : Option Unit)) sampleConfig (some ⟨true⟩)
    [APICall.insertReportCall "p" none "r1" "tok" (RequestEvent.response ⟨some 200, ["ok"]⟩),
     APICall.insertReportCall "p" none "r2" "tok" (RequestEvent.transportError "reset")]
    ⟨[], [], []⟩ rfl
  rw [h]
  rfl

/-- Claim C9: every endpoint operation appends only to its own ledger
slice: for every insertFile call the insertReport and loadHistoryScan
slices are unchanged afterwards — whatever the transport outcome — and
symmetrically for the other two operations. -/
theorem C9_frame_other_slices_unchanged {α : Type} (parse : String → Option α)
    (config : Config) (snowpipeAPIOptions : Option SnowpipeAPIOptions)
    (hist : APIEndpointHistory) (pipeName startTimeInclusive : String)
    (filenames : List String) (postJSON : Bool)
    (beginMark endTimeExclusive : Option String) (requestId jwtToken : String)
    (event : RequestEvent) :
    ((insertFile parse config snowpipeAPIOptions hist pipeName filenames postJSON
        requestId jwtToken event).1.insertReport = hist.insertReport ∧
     (insertFile parse config snowpipeAPIOptions hist pipeName filenames postJSON
        requestId jwtToken event).1.loadHistoryScan = hist.loadHistoryScan) ∧
    ((insertReport parse config snowpipeAPIOptions hist pipeName beginMark
        requestId jwtToken event).1.insertFile = hist.insertFile ∧
     (insertReport parse config snowpipeAPIOptions hist pipeName beginMark
        requestId jwtToken event).1.loadHistoryScan = hist.loadHistoryScan) ∧
    ((loadHistoryScan parse config snowpipeAPIOptions hist pipeName startTimeInclusive
        endTimeExclusive requestId jwtToken event).1.insertFile = hist.insertFile ∧
     (loadHistoryScan parse config snowpipeAPIOptions hist pipeName startTimeInclusive
        endTimeExclusive requestId jwtToken event).1.insertReport = hist.insertReport) :=
  ⟨⟨rfl, rfl⟩, ⟨rfl, rfl⟩, ⟨rfl, rfl⟩⟩

theorem utf16SizeChar_le_utf8SizeChar (c : Char) : utf16SizeChar c ≤ utf8SizeChar c := by
  unfold utf16SizeChar utf8SizeChar
  split_ifs <;> omega

theorem utf16SizeChar_eq_utf8SizeChar_iff (c : Char) :
    utf16SizeChar c = utf8SizeChar c ↔ c.toNat < 128 := by
  unfold utf16SizeChar utf8SizeChar
  split_ifs <;> omega

theorem sum_utf16_le_sum_utf8 (l : List Char) :
    (l.map utf16SizeChar).sum ≤ (l.map utf8SizeChar).sum := by
  induction l with
  | nil => simp
  | cons c l ih =>
    simp only [List.map_cons, List.sum_cons]
    have := utf16SizeChar_le_utf8SizeChar c
    omega

theorem sum_utf16_eq_sum_utf8_iff (l : List Char) :
    (l.map utf16SizeChar).sum = (l.map utf8SizeChar).sum ↔ ∀ c ∈ l, c.toNat < 128 := by
  induction l with
  | nil => simp
  | cons c l ih =>
    simp only [List.map_cons, List.sum_cons, List.mem_cons]
    constructor
    · intro hsum
      have h1 := utf16SizeChar_le_utf8SizeChar c
      have h2 := sum_utf16_le_sum_utf8 l
      have hc : utf16SizeChar c = utf8SizeChar c := by omega
      have hl : (l.map utf16SizeChar).sum = (l.map utf8SizeChar).sum := by omega
      intro x hx
      rcases hx with hx | hx
      · subst hx
        exact (utf16SizeChar_eq_utf8SizeChar_iff x).mp hc
      · exact (ih.mp hl) x hx
    · intro hall
      have hc : utf16SizeChar c = utf8SizeChar c :=
        (utf16SizeChar_eq_utf8SizeChar_iff c).mpr (hall c (Or.inl rfl))
      have hl : (l.map utf16SizeChar).sum = (l.map utf8SizeChar).sum :=
        ih.mpr (fun x hx => hall x (Or.inr hx))
      omega

/-- Claim C10: in both modes insertFile sets Content-Length to the JS
string length of the post body, its UTF-16 code unit count, not its
UTF-8 encoded byte length; the two lengths coincide exactly when the body
holds only ASCII-range characters. -/
theorem C10_content_length_is_utf16 (config : Config) (pipeName : String)
    (filenames : List String) (postJSON : Bool) (requestId jwtToken : String) :
    (insertFileRequest config pipeName filenames postJSON requestId jwtToken).1.headers.contentLength =
      some (jsStringLength
        (insertFileRequest config pipeName filenames postJSON requestId jwtToken).2) ∧
    (∀ s : String, jsStringLength s = utf8ByteLength s ↔ ∀ c ∈ s.data, c.toNat < 128) :=
  ⟨rfl, fun s => sum_utf16_eq_sum_utf8_iff s.data⟩
